import Mathlib

/-!
Verification of the DMF school-administration backend's visit-scheduling and
reporting workflow.  The document database is modelled as explicit lists of
records; each service of `src/src/services/lifeSkillTrainer.service.js` and the
`bulkUpload` school-onboarding service becomes a pure state-passing function.
JavaScript string truthiness is modelled by `≠ ""` (the empty string stands for
both `undefined` and `""`, which are equally falsy in every check the services
perform).  Thrown `ApiError`s become `Except.error` results paired with the
database state as it stands when the throw happens.
-/

namespace DMF

/-- Domain errors carried by `ApiError`: an HTTP status class plus a message. -/
inductive ApiError where
  | conflict (msg : String)
  | notFound (msg : String)
deriving DecidableEq, Repr

instance exceptDecEq {ε α : Type} [DecidableEq ε] [DecidableEq α] : DecidableEq (Except ε α) :=
  fun x y =>
    match x, y with
    | .error e, .error f =>
      if h : e = f then .isTrue (by rw [h]) else .isFalse (fun hc => by cases hc; exact h rfl)
    | .error _, .ok _ => .isFalse (fun hc => by cases hc)
    | .ok _, .error _ => .isFalse (fun hc => by cases hc)
    | .ok a, .ok b =>
      if h : a = b then .isTrue (by rw [h]) else .isFalse (fun hc => by cases hc; exact h rfl)

/-- A `LifeTrainerVisit` document.  Fields not set by `scheduleVisit` default to
the empty string (JS `undefined`); per the spec's lifecycle the schema default
for `status` is `scheduled`. -/
structure Visit where
  id : Nat
  trainer : Nat
  schoolId : String
  visitDate : String
  time : String
  standard : String := ""
  status : String := "scheduled"
  inTime : String := ""
  outTime : String := ""
  inDate : String := ""
  outDate : String := ""
  file : String := ""
  file1 : String := ""
  createdAt : String := ""
deriving DecidableEq, Repr

/-- A `User` document (trainer or school account). -/
structure User where
  id : Nat
  role : String := ""
  firstName : String := ""
  lastName : String := ""
  mobNumber : String := ""
  username : String := ""
  password : String := ""
  deviceToken : String := ""
  visits : List Nat := []
deriving DecidableEq, Repr

/-- A `School` document. -/
structure School where
  schoolId : String := ""
  name : String := ""
  contact_number : String := ""
  address : String := ""
  udisecode : String := ""
  district : String := ""
  block : String := ""
deriving DecidableEq, Repr

/-- A `Student` document (only its school scoping matters here). -/
structure Student where
  id : Nat
  schoolId : String
deriving DecidableEq, Repr

/-- The database state: one list per collection, plus fresh-id counters
standing for Mongo's `_id` generation. -/
structure DB where
  visits : List Visit := []
  users : List User := []
  schools : List School := []
  students : List Student := []
  nextVisitId : Nat := 0
  nextUserId : Nat := 0
deriving DecidableEq, Repr

/-- The duplicate-slot filter of `scheduleVisit`'s `findOne`: exact match on
the tuple (trainer, schoolId, visitDate, time). -/
def visitMatches (trainerId : Nat) (schoolId visitDate time : String) (v : Visit) : Bool :=
  v.trainer == trainerId && v.schoolId == schoolId && v.visitDate == visitDate && v.time == time

/-- The visit document `scheduleVisit` constructs before saving. -/
def newVisitOf (db : DB) (trainerId : Nat) (schoolId visitDate time : String) : Visit :=
  { id := db.nextVisitId, trainer := trainerId, schoolId := schoolId,
    visitDate := visitDate, time := time }

/-- `scheduleVisit(trainerId, schoolId, visitDate, time)`: duplicate check
(CONFLICT), then `visit.save()`, then trainer lookup (NOT_FOUND — note the
visit is already saved at this point), then push onto `trainer.visits` and
save the trainer.  The push notification only talks to the external adapter
and changes no database state. -/
def scheduleVisit (db : DB) (trainerId : Nat) (schoolId visitDate time : String) :
    Except ApiError Visit × DB :=
  match db.visits.find? (visitMatches trainerId schoolId visitDate time) with
  | some _ => (Except.error (ApiError.conflict "Visit scheduled already found"), db)
  | none =>
    let visit := newVisitOf db trainerId schoolId visitDate time
    let db1 : DB := { db with visits := db.visits ++ [visit], nextVisitId := db.nextVisitId + 1 }
    match db1.users.find? (fun u => u.id == trainerId) with
    | none => (Except.error (ApiError.notFound "Trainer not found"), db1)
    | some trainer =>
      let trainer1 : User := { trainer with visits := trainer.visits ++ [visit.id] }
      (Except.ok visit,
       { db1 with users := db1.users.map (fun u => if u.id == trainer.id then trainer1 else u) })

/-- `getVisitById(id)`: `findById`. -/
def getVisitById (db : DB) (id : Nat) : Option Visit :=
  db.visits.find? (fun v => v.id == id)

/-- The body of an update request.  `Object.assign` merges exactly the keys
present in the body; `none` models an absent key.  The service only ever reads
the six attendance fields and `status`, so the model carries those together
with `standard` (the one other mutable visit field). -/
structure UpdateBody where
  standard : Option String := none
  status : Option String := none
  inTime : Option String := none
  outTime : Option String := none
  inDate : Option String := none
  outDate : Option String := none
  file : Option String := none
  file1 : Option String := none
deriving DecidableEq, Repr

/-- `Object.assign(result, updateBody)`: keys present in the body overwrite. -/
def mergeVisit (v : Visit) (u : UpdateBody) : Visit :=
  { v with standard := u.standard.getD v.standard,
           status := u.status.getD v.status,
           inTime := u.inTime.getD v.inTime,
           outTime := u.outTime.getD v.outTime,
           inDate := u.inDate.getD v.inDate,
           outDate := u.outDate.getD v.outDate,
           file := u.file.getD v.file,
           file1 := u.file1.getD v.file1 }

/-- The completion test `if (inTime && outTime && inDate && outDate && file && file1)`:
all six attendance fields truthy. -/
def allAttendanceSet (v : Visit) : Bool :=
  v.inTime != "" && v.outTime != "" && v.inDate != "" && v.outDate != "" &&
  v.file != "" && v.file1 != ""

/-- The merge-then-maybe-complete transformation `updateVisitById` applies to
the visit it found. -/
def applyUpdate (v : Visit) (u : UpdateBody) : Visit :=
  let v1 := mergeVisit v u
  if allAttendanceSet v1 then { v1 with status := "completed" } else v1

/-- `updateVisitById(schoolId, trainer, updateBody)`: `findOne({schoolId, trainer})`
(NOT_FOUND when absent), merge and save, then re-check completion and save
again when all six attendance fields are set. -/
def updateVisitById (db : DB) (schoolId : String) (trainer : Nat) (u : UpdateBody) :
    Except ApiError Visit × DB :=
  match db.visits.find? (fun v => v.schoolId == schoolId && v.trainer == trainer) with
  | none => (Except.error (ApiError.notFound "Visit not found"), db)
  | some v =>
    let v2 := applyUpdate v u
    (Except.ok v2, { db with visits := db.visits.map (fun w => if w.id == v.id then v2 else w) })

/-- `deleteVisit(visitId)`: `findById` (NOT_FOUND), owning-trainer lookup
(NOT_FOUND), `trainer.visits.pull(visitId)` and save, then `visit.remove()`. -/
def deleteVisit (db : DB) (visitId : Nat) : Except ApiError Visit × DB :=
  match db.visits.find? (fun v => v.id == visitId) with
  | none => (Except.error (ApiError.notFound "Visit not found"), db)
  | some visit =>
    match db.users.find? (fun u => u.id == visit.trainer) with
    | none => (Except.error (ApiError.notFound "Trainer not found"), db)
    | some trainer =>
      let trainer1 : User := { trainer with visits := trainer.visits.filter (fun x => x != visitId) }
      let db1 : DB := { db with users := db.users.map (fun u => if u.id == trainer.id then trainer1 else u) }
      (Except.ok visit, { db1 with visits := db1.visits.filter (fun v => v.id != visitId) })

/-- The `$match` stage of `getTrainerVisits`: by trainer, and by status when
one is provided. -/
def matchStage (db : DB) (trainerId : Nat) (status : Option String) : List Visit :=
  db.visits.filter (fun v =>
    v.trainer == trainerId && (match status with | some s => v.status == s | none => true))

/-- The `$lookup` stage: all schools whose `schoolId` equals the visit's. -/
def lookupSchools (db : DB) (schoolId : String) : List School :=
  db.schools.filter (fun s => s.schoolId == schoolId)

/-- One row of `getTrainerVisits` output after the `$project` stage. -/
structure TrainerVisitRow where
  id : Nat
  visitDate : String
  time : String
  standard : String
  status : String
  createdAt : String
  school : School
deriving DecidableEq, Repr

/-- The `$project` stage applied to a visit joined with one school. -/
def mkRow (v : Visit) (s : School) : TrainerVisitRow :=
  { id := v.id, visitDate := v.visitDate, time := v.time, standard := v.standard,
    status := v.status, createdAt := v.createdAt, school := s }

/-- `getTrainerVisits(trainerId, status)`: the aggregation pipeline
`$match` → `$lookup` → `$unwind` → `$project`.  `$unwind` emits one document
per element of the looked-up `school` array (and none when it is empty), which
the `bind`/`map` composition reproduces exactly. -/
def getTrainerVisits (db : DB) (trainerId : Nat) (status : Option String) : List TrainerVisitRow :=
  (matchStage db trainerId status).flatMap (fun v => (lookupSchools db v.schoolId).map (mkRow v))

/-- The trainer fields `getVisitsBySchoolId` selects for the counselor. -/
structure CounselorInfo where
  firstName : String
  lastName : String
  mobNumber : String
deriving DecidableEq, Repr

/-- One element pushed onto `populatedVisits`. -/
structure PopulatedVisit where
  visit : Visit
  counselor : Option CounselorInfo
  createdAt : String
deriving DecidableEq, Repr

/-- The per-visit pairing step of `getVisitsBySchoolId`: the counselor is the
first user matching `{_id: visit.trainer, role: 'skillTrainer'}`, narrowed to
name/contact fields, or `null` when none matches. -/
def populateVisit (db : DB) (v : Visit) : PopulatedVisit :=
  { visit := v,
    counselor := (db.users.find? (fun u => u.id == v.trainer && u.role == "skillTrainer")).map
      (fun u => { firstName := u.firstName, lastName := u.lastName, mobNumber := u.mobNumber }),
    createdAt := v.createdAt }

/-- `getVisitsBySchoolId(schoolId)`: all visits of the school (NOT_FOUND when
there are none), each paired with its counselor lookup. -/
def getVisitsBySchoolId (db : DB) (schoolId : String) : Except ApiError (List PopulatedVisit) :=
  let visits := db.visits.filter (fun v => v.schoolId == schoolId)
  if visits.isEmpty then Except.error (ApiError.notFound "Visits not found")
  else Except.ok (visits.map (populateVisit db))

/-- First-occurrence deduplication, the behaviour of `[...new Set(xs)]`. -/
def jsSetDedup : List String → List String
  | [] => []
  | a :: rest => a :: (jsSetDedup rest).filter (fun b => b ≠ a)

/-- The response of `getSchoolIdsAndStudentCount`. -/
structure TrainerStats where
  totalSchools : Nat
  totalStudents : Nat
  statusCounts : List (String × Nat)
deriving DecidableEq, Repr

/-- `getSchoolIdsAndStudentCount(trainerId)`: distinct school ids of the
trainer's visits, `countDocuments({schoolId: {$in: uniqueSchoolIds}})` over
students, and the `$group`-by-status count of the trainer's visits (one entry
per status value that occurs). -/
def getSchoolIdsAndStudentCount (db : DB) (trainerId : Nat) : TrainerStats :=
  let tvisits := db.visits.filter (fun v => v.trainer == trainerId)
  let uniqueSchoolIds := jsSetDedup (tvisits.map (fun v => v.schoolId))
  let totalSchools := uniqueSchoolIds.length
  let totalStudents := (db.students.filter (fun s => uniqueSchoolIds.contains s.schoolId)).length
  let statuses := jsSetDedup (tvisits.map (fun v => v.status))
  let statusCounts := statuses.map (fun st => (st, (tvisits.filter (fun v => v.status == st)).length))
  { totalSchools := totalSchools, totalStudents := totalStudents, statusCounts := statusCounts }

/-- One input record of the bulk-upload batch. -/
structure SchoolInput where
  udisecode : String := ""
  name : String := ""
  firstname : String := ""
  lastname : String := ""
  mobNumber : String := ""
  contact_number : String := ""
  address : String := ""
  district : String := ""
  block : String := ""
deriving DecidableEq, Repr

/-- The school document `bulkUpload` saves for a non-duplicate record, with
its generated `schoolId`. -/
def mkSchool (s : SchoolInput) (schoolId : String) : School :=
  { schoolId := schoolId, name := s.name, contact_number := s.contact_number,
    address := s.address, udisecode := s.udisecode, district := s.district, block := s.block }

/-- The companion `User.create` document for a freshly onboarded school. -/
def mkSchoolUser (s : SchoolInput) (schoolId : String) (uid : Nat) : User :=
  { id := uid, firstName := s.firstname, lastName := s.lastname, mobNumber := s.mobNumber,
    username := schoolId, password := "admin@123", role := "school" }

/-- The existence check `School.findOne({udisecode})` against the current
database. -/
def dupTest (db : DB) (s : SchoolInput) : Bool :=
  db.schools.any (fun sch => sch.udisecode == s.udisecode)

/-- The per-record loop of `bulkUpload`, processed in batch order (the spec's
"absent races" reading of the `Promise.all` fan-out).  `gen` supplies the
values of the `SCH` + 6-random-digits generator, one per generated id;
accumulators carry the `records`/`dups` arrays. -/
def processBulk (gen : Nat → String) :
    List SchoolInput → DB → List SchoolInput → List SchoolInput → Nat →
    DB × List SchoolInput × List SchoolInput
  | [], db, records, dups, _ => (db, records, dups)
  | s :: rest, db, records, dups, i =>
    if dupTest db s then
      processBulk gen rest db records (dups ++ [s]) i
    else
      let schoolId := gen i
      let db1 : DB := { db with
        schools := db.schools ++ [mkSchool s schoolId],
        users := db.users ++ [mkSchoolUser s schoolId db.nextUserId],
        nextUserId := db.nextUserId + 1 }
      processBulk gen rest db1 (records ++ [s]) dups (i + 1)

/-- The summary object `bulkUpload` returns on success. -/
structure BulkSummary where
  totalDuplicates : Nat
  dupData : List SchoolInput
  totalNonDuplicates : Nat
  nonDupData : List SchoolInput
deriving DecidableEq, Repr

/-- A `bulkUpload` response: either the `{error: true, message}` object or the
duplicates/non-duplicates summary. -/
inductive BulkResult where
  | errorResp (message : String)
  | ok (summary : BulkSummary)
deriving DecidableEq, Repr

/-- `bulkUpload(schoolArray, csvFilePath)`: a CSV batch replaces the body
batch; a missing or empty batch yields the `{error: true, message: 'missing
array'}` response; otherwise every record is processed and the summary
returned. -/
def bulkUpload (gen : Nat → String) (db : DB) (schoolArray : Option (List SchoolInput))
    (csvFilePath : Option (List SchoolInput)) : BulkResult × DB :=
  let modified := match csvFilePath with
    | some l => some l
    | none => schoolArray
  match modified with
  | none => (BulkResult.errorResp "missing array", db)
  | some schools =>
    if schools.isEmpty then (BulkResult.errorResp "missing array", db)
    else
      let (db2, records, dups) := processBulk gen schools db [] [] 0
      (BulkResult.ok
        { totalDuplicates := dups.length, dupData := dups,
          totalNonDuplicates := records.length, nonDupData := records }, db2)

/-! ### Helper lemmas -/

theorem find?_none_of_all_false {α : Type} (p : α → Bool) {l : List α}
    (h : ∀ a ∈ l, p a = false) : l.find? p = none :=
  List.find?_eq_none.mpr (fun a ha => by simp [h a ha])

theorem filter_nil_of_all_false {α : Type} (p : α → Bool) {l : List α}
    (h : ∀ a ∈ l, p a = false) : l.filter p = [] := by
  rw [List.filter_eq_nil_iff]
  intro a ha
  simp [h a ha]

/-- The state after a `scheduleVisit` call that passed the duplicate check:
whatever the trainer lookup yields, the new visit is already appended. -/
theorem scheduleVisit_snd_visits (db : DB) (tid : Nat) (sid vd tm : String)
    (hfind : db.visits.find? (visitMatches tid sid vd tm) = none) :
    (scheduleVisit db tid sid vd tm).2.visits =
      db.visits ++ [newVisitOf db tid sid vd tm] := by
  rcases hu : db.users.find? (fun u => u.id == tid) with _ | u <;>
    simp [scheduleVisit, hfind, hu]

theorem newVisit_matches (db : DB) (tid : Nat) (sid vd tm : String) :
    visitMatches tid sid vd tm (newVisitOf db tid sid vd tm) = true := by
  simp [visitMatches, newVisitOf]

/-- When the duplicate lookup succeeds, `scheduleVisit` is the CONFLICT error
with the state unchanged. -/
theorem scheduleVisit_of_found {db : DB} {tid : Nat} {sid vd tm : String} {w : Visit}
    (h : db.visits.find? (visitMatches tid sid vd tm) = some w) :
    scheduleVisit db tid sid vd tm =
      (Except.error (ApiError.conflict "Visit scheduled already found"), db) := by
  simp [scheduleVisit, h]

/-! ### Concrete fixtures used by witnesses and counterexamples -/

/-- A visit of trainer 7 to school `S1`. -/
def visitA : Visit := { id := 3, trainer := 7, schoolId := "S1", visitDate := "d1", time := "t1" }

/-- Trainer 7, owning `visitA`. -/
def trainer7 : User := { id := 7, role := "skillTrainer", visits := [3] }

/-- A database with one visit owned by one existing trainer. -/
def dbDelete : DB := { visits := [visitA], users := [trainer7], nextVisitId := 4, nextUserId := 8 }

/-- A visit of trainer 1 to school `S1` with four of the six attendance
fields set. -/
def visitB : Visit :=
  { id := 0, trainer := 1, schoolId := "S1", visitDate := "d1", time := "t1",
    inTime := "9", outTime := "10", inDate := "d1", outDate := "d1" }

/-- A database holding just `visitB`. -/
def dbUpd : DB := { visits := [visitB], nextVisitId := 1 }

/-- An update body supplying the two missing attendance files. -/
def bodyUpd : UpdateBody := { file := some "f", file1 := some "g" }

/-- First visit of trainer 1 to school `S1`. -/
def visitC : Visit := { id := 0, trainer := 1, schoolId := "S1", visitDate := "d1", time := "t1" }

/-- Second visit of trainer 1 to the same school `S1`, on another date. -/
def visitD : Visit := { id := 1, trainer := 1, schoolId := "S1", visitDate := "d2", time := "t2" }

/-- A database where trainer 1 has two visits to the same school. -/
def dbTwo : DB := { visits := [visitC, visitD], nextVisitId := 2 }

/-- An update body touching only `standard`. -/
def bodyStd : UpdateBody := { standard := some "5" }

/-! ### Claims -/

/-- C1: if a visit already exists for the exact tuple (trainer, schoolId,
visitDate, time), `scheduleVisit` fails with a CONFLICT error before any
write occurs (the state is returned unchanged); and starting from a state
with no such visit, scheduling the same slot twice leaves exactly one
persisted visit matching the tuple while the second call fails with CONFLICT
and changes nothing. -/
theorem scheduleVisit_conflict_spec (db : DB) (tid : Nat) (sid vd tm : String) :
    ((∃ v ∈ db.visits, visitMatches tid sid vd tm v = true) →
      scheduleVisit db tid sid vd tm =
        (Except.error (ApiError.conflict "Visit scheduled already found"), db)) ∧
    ((∀ v ∈ db.visits, visitMatches tid sid vd tm v = false) →
      ((db.visits.filter (visitMatches tid sid vd tm)).length = 0 ∧
       ((scheduleVisit db tid sid vd tm).2.visits.filter (visitMatches tid sid vd tm)).length = 1 ∧
       scheduleVisit (scheduleVisit db tid sid vd tm).2 tid sid vd tm =
         (Except.error (ApiError.conflict "Visit scheduled already found"),
          (scheduleVisit db tid sid vd tm).2))) := by
  constructor
  · rintro ⟨v, hv, hm⟩
    obtain ⟨w, hw⟩ : ∃ w, db.visits.find? (visitMatches tid sid vd tm) = some w := by
      rcases hfind : db.visits.find? (visitMatches tid sid vd tm) with _ | w
      · exact absurd (List.find?_eq_none.mp hfind v hv) (by simp [hm])
      · exact ⟨w, rfl⟩
    exact scheduleVisit_of_found hw
  · intro h
    have hfind : db.visits.find? (visitMatches tid sid vd tm) = none :=
      find?_none_of_all_false _ h
    have hnil : db.visits.filter (visitMatches tid sid vd tm) = [] :=
      filter_nil_of_all_false _ h
    have hpost := scheduleVisit_snd_visits db tid sid vd tm hfind
    refine ⟨by simp [hnil], ?_, ?_⟩
    · rw [hpost, List.filter_append, hnil]
      simp [newVisit_matches]
    · have hfind2 : (scheduleVisit db tid sid vd tm).2.visits.find?
          (visitMatches tid sid vd tm) = some (newVisitOf db tid sid vd tm) := by
        rw [hpost, List.find?_append, hfind]
        simp [newVisit_matches]
      exact scheduleVisit_of_found hfind2

/-- Witness for C1: on the empty database, scheduling trainer 1 for school
`S1` on `d1` at `t1` and repeating the call exhibits the duplicate-free
hypothesis and the proved conclusions at a concrete input. -/
theorem scheduleVisit_conflict_spec_witness :
    (∀ v ∈ ({} : DB).visits, visitMatches 1 "S1" "d1" "t1" v = false) ∧
    ((({} : DB).visits.filter (visitMatches 1 "S1" "d1" "t1")).length = 0 ∧
     ((scheduleVisit {} 1 "S1" "d1" "t1").2.visits.filter (visitMatches 1 "S1" "d1" "t1")).length = 1 ∧
     scheduleVisit (scheduleVisit {} 1 "S1" "d1" "t1").2 1 "S1" "d1" "t1" =
       (Except.error (ApiError.conflict "Visit scheduled already found"),
        (scheduleVisit {} 1 "S1" "d1" "t1").2)) :=
  ⟨by decide, (scheduleVisit_conflict_spec {} 1 "S1" "d1" "t1").2 (by decide)⟩

/-- C3 counterexample: on the empty database (trainer 1 does not exist, and no
duplicate visit matches), `scheduleVisit` fails with NOT_FOUND as claimed, but
the failing call has already persisted the visit record: the post-state holds
one visit, refuting "the visit-creation side effect does not occur". -/
theorem scheduleVisit_missing_trainer_persists_cex :
    (scheduleVisit {} 1 "S1" "d1" "t1").1 = Except.error (ApiError.notFound "Trainer not found") ∧
    (scheduleVisit {} 1 "S1" "d1" "t1").2.visits.length = 1 := by
  decide

/-- C3 amended: when the trainer does not resolve to an existing user and no
duplicate visit matches the tuple, `scheduleVisit` fails with NOT_FOUND, but
only after persisting the new visit (`visit.save()` precedes the trainer
lookup); the post-state is the input state with the new visit appended, and no
trainer back-reference is added. -/
theorem scheduleVisit_missing_trainer (db : DB) (tid : Nat) (sid vd tm : String)
    (hdup : ∀ v ∈ db.visits, visitMatches tid sid vd tm v = false)
    (htr : db.users.find? (fun u => u.id == tid) = none) :
    scheduleVisit db tid sid vd tm =
      (Except.error (ApiError.notFound "Trainer not found"),
       { db with visits := db.visits ++ [newVisitOf db tid sid vd tm],
                 nextVisitId := db.nextVisitId + 1 }) := by
  have hfind := find?_none_of_all_false _ hdup
  simp [scheduleVisit, hfind, htr]

/-- Witness for the amended C3 at a concrete input: the empty database. -/
theorem scheduleVisit_missing_trainer_witness :
    ((∀ v ∈ ({} : DB).visits, visitMatches 1 "S1" "d1" "t1" v = false) ∧
      ({} : DB).users.find? (fun u => u.id == 1) = none) ∧
    scheduleVisit {} 1 "S1" "d1" "t1" =
      (Except.error (ApiError.notFound "Trainer not found"),
       { ({} : DB) with visits := ({} : DB).visits ++ [newVisitOf {} 1 "S1" "d1" "t1"],
                        nextVisitId := ({} : DB).nextVisitId + 1 }) :=
  ⟨⟨by decide, by decide⟩,
   scheduleVisit_missing_trainer {} 1 "S1" "d1" "t1" (by decide) (by decide)⟩

/-- C4: `deleteVisit` fails with NOT_FOUND (leaving the state unchanged) when
the visit does not exist or its owning trainer does not exist; when both
exist, it removes the visit id from the owning trainer's visit collection,
persists the trainer, and deletes the visit record, after which the visit is
no longer retrievable by `getVisitById`. -/
theorem deleteVisit_spec (db : DB) (vid : Nat) :
    (db.visits.find? (fun v => v.id == vid) = none →
      deleteVisit db vid = (Except.error (ApiError.notFound "Visit not found"), db)) ∧
    (∀ v, db.visits.find? (fun w => w.id == vid) = some v →
      (db.users.find? (fun u => u.id == v.trainer) = none →
        deleteVisit db vid = (Except.error (ApiError.notFound "Trainer not found"), db)) ∧
      (∀ tr, db.users.find? (fun u => u.id == v.trainer) = some tr →
        (deleteVisit db vid).1 = Except.ok v ∧
        getVisitById (deleteVisit db vid).2 vid = none ∧
        (∀ u ∈ (deleteVisit db vid).2.users, u.id = v.trainer → vid ∉ u.visits) ∧
        (deleteVisit db vid).2.users.length = db.users.length ∧
        (deleteVisit db vid).2.visits = db.visits.filter (fun w => w.id != vid))) := by
  refine ⟨fun h => by simp [deleteVisit, h], fun v hv => ⟨fun h => by simp [deleteVisit, hv, h], ?_⟩⟩
  intro tr htr
  have heq : deleteVisit db vid =
      (Except.ok v,
       { db with
         users := db.users.map (fun u => if u.id == tr.id then
           { tr with visits := tr.visits.filter (fun x => x != vid) } else u),
         visits := db.visits.filter (fun w => w.id != vid) }) := by
    simp [deleteVisit, hv, htr]
  have htrid : tr.id = v.trainer := by simpa using List.find?_some htr
  rw [heq]
  refine ⟨rfl, ?_, ?_, by simp, rfl⟩
  · apply find?_none_of_all_false
    intro w hw
    have hne : (w.id != vid) = true := (List.mem_filter.mp hw).2
    simpa using hne
  · intro u hu hid
    obtain ⟨u0, hu0, rfl⟩ := List.mem_map.mp hu
    by_cases hcase : u0.id == tr.id
    · simp [hcase, List.mem_filter]
    · rw [if_neg (by simpa using hcase)] at hid ⊢
      exact absurd (hid.trans htrid.symm) (by simpa using hcase)

/-- Witness for C4 on a concrete database: trainer 7 owns visit 3 to school
`S1`; deleting visit 3 succeeds, detaches it from the trainer and makes it
unretrievable. -/
theorem deleteVisit_spec_witness :
    (dbDelete.visits.find? (fun w => w.id == 3) = some visitA ∧
     dbDelete.users.find? (fun u => u.id == visitA.trainer) = some trainer7) ∧
    ((deleteVisit dbDelete 3).1 = Except.ok visitA ∧
     getVisitById (deleteVisit dbDelete 3).2 3 = none ∧
     (∀ u ∈ (deleteVisit dbDelete 3).2.users, u.id = visitA.trainer → 3 ∉ u.visits) ∧
     (deleteVisit dbDelete 3).2.users.length = dbDelete.users.length ∧
     (deleteVisit dbDelete 3).2.visits = dbDelete.visits.filter (fun w => w.id != 3)) :=
  ⟨⟨by decide, by decide⟩,
   ((deleteVisit_spec dbDelete 3).2 visitA (by decide)).2 trainer7 (by decide)⟩

theorem find?_eq_head?_filter {α : Type} (p : α → Bool) (l : List α) :
    l.find? p = (l.filter p).head? := by
  induction l with
  | nil => rfl
  | cons a t ih =>
    by_cases h : p a
    · simp [List.find?_cons, List.filter_cons, h]
    · simp only [List.find?_cons, List.filter_cons, h, Bool.false_eq_true, if_false]
      exact ih

/-- The exact success shape of `updateVisitById` once the lookup succeeds. -/
theorem updateVisitById_of_found {db : DB} {sid : String} {tid : Nat} {u : UpdateBody} {v : Visit}
    (hfind : db.visits.find? (fun w => w.schoolId == sid && w.trainer == tid) = some v) :
    updateVisitById db sid tid u =
      (Except.ok (applyUpdate v u),
       { db with visits := db.visits.map (fun w => if w.id == v.id then applyUpdate v u else w) }) := by
  simp [updateVisitById, hfind, applyUpdate]

/-- C2 counterexample: trainer 1 has one visit to school `S1` with status
`scheduled` and no attendance fields set.  Calling `updateVisitById` with the
body `{status: 'completed'}` leaves all six attendance fields unset, yet the
persisted status becomes `completed` (the merge writes it directly): the
status is `completed` without all six attendance fields being set, and the
prior status was not kept although the update left the six unset. -/
theorem updateVisitById_status_cex :
    (updateVisitById
        (DB.mk [{ id := 0, trainer := 1, schoolId := "S1", visitDate := "d1", time := "t1" }]
          [] [] [] 1 0) "S1" 1 { status := some "completed" }).1 =
      Except.ok { id := 0, trainer := 1, schoolId := "S1", visitDate := "d1", time := "t1",
                  status := "completed" } ∧
    allAttendanceSet { id := 0, trainer := 1, schoolId := "S1", visitDate := "d1", time := "t1",
                       status := ("completed" : String) } = false ∧
    ({ id := 0, trainer := 1, schoolId := "S1", visitDate := "d1", time := "t1" } : Visit).status
      = "scheduled" := by
  refine ⟨?_, by decide, by decide⟩
  decide

/-- C2 amended: for an update body that does not itself write the `status`
field, the persisted status after `updateVisitById` is `completed` when all
six attendance fields are set after the merge, and is the visit's prior
status otherwise (so a previously `completed` status is kept even when the
update leaves an attendance field unset: the service only ever sets
`completed`, it never revokes it). -/
theorem updateVisitById_status (db : DB) (sid : String) (tid : Nat) (u : UpdateBody) (v : Visit)
    (hfind : db.visits.find? (fun w => w.schoolId == sid && w.trainer == tid) = some v)
    (hst : u.status = none) :
    (updateVisitById db sid tid u).1 = Except.ok (applyUpdate v u) ∧
    (applyUpdate v u).status =
      (if allAttendanceSet (mergeVisit v u) then "completed" else v.status) ∧
    applyUpdate v u ∈ (updateVisitById db sid tid u).2.visits := by
  rw [updateVisitById_of_found hfind]
  have hs : (mergeVisit v u).status = v.status := by simp [mergeVisit, hst]
  refine ⟨rfl, ?_, ?_⟩
  · by_cases h : allAttendanceSet (mergeVisit v u)
    · simp [applyUpdate, h]
    · simp only [applyUpdate, h, Bool.false_eq_true, if_false]
      simp [h, hs]
  · have hv : v ∈ db.visits := List.mem_of_find?_eq_some hfind
    exact List.mem_map.mpr ⟨v, hv, by simp⟩

/-- Witness for the amended C2: completing the last missing attendance fields
of a visit flips its status to `completed`. -/
theorem updateVisitById_status_witness :
    (dbUpd.visits.find? (fun w => w.schoolId == "S1" && w.trainer == 1) = some visitB ∧
     bodyUpd.status = none) ∧
    ((updateVisitById dbUpd "S1" 1 bodyUpd).1 = Except.ok (applyUpdate visitB bodyUpd) ∧
     (applyUpdate visitB bodyUpd).status =
       (if allAttendanceSet (mergeVisit visitB bodyUpd) then "completed" else visitB.status) ∧
     applyUpdate visitB bodyUpd ∈ (updateVisitById dbUpd "S1" 1 bodyUpd).2.visits) :=
  ⟨⟨by decide, by decide⟩,
   updateVisitById_status dbUpd "S1" 1 bodyUpd visitB (by decide) (by decide)⟩

/-- C9: `updateVisitById` locates the visit only by the pair (schoolId,
trainer) — the lookup ignores `visitDate` and `time` — and, in a state with
distinct visit ids, merges the update into exactly the first such match:
the result is the transformed first match, the visit count is unchanged, and
every other visit (in particular every later visit of the same trainer and
school) is still present unchanged. -/
theorem updateVisitById_first_match (db : DB) (sid : String) (tid : Nat) (u : UpdateBody) (v : Visit)
    (hnodup : (db.visits.map (fun w => w.id)).Nodup)
    (hfirst : (db.visits.filter (fun w => w.schoolId == sid && w.trainer == tid)).head? = some v) :
    (updateVisitById db sid tid u).1 = Except.ok (applyUpdate v u) ∧
    (updateVisitById db sid tid u).2.visits.length = db.visits.length ∧
    applyUpdate v u ∈ (updateVisitById db sid tid u).2.visits ∧
    (∀ w ∈ db.visits, w ≠ v → w ∈ (updateVisitById db sid tid u).2.visits) := by
  have hfind : db.visits.find? (fun w => w.schoolId == sid && w.trainer == tid) = some v := by
    rw [find?_eq_head?_filter]; exact hfirst
  have hv : v ∈ db.visits := List.mem_of_find?_eq_some hfind
  rw [updateVisitById_of_found hfind]
  refine ⟨rfl, by simp, List.mem_map.mpr ⟨v, hv, by simp⟩, ?_⟩
  intro w hw hne
  have hid : w.id ≠ v.id := fun h => hne (List.inj_on_of_nodup_map hnodup hw hv h)
  exact List.mem_map.mpr ⟨w, hw, by simp [hid]⟩

/-- Witness for C9: trainer 1 has two visits to school `S1` on different
dates; the update lands on the first one and the second survives unchanged. -/
theorem updateVisitById_first_match_witness :
    ((dbTwo.visits.map (fun w => w.id)).Nodup ∧
     (dbTwo.visits.filter (fun w => w.schoolId == "S1" && w.trainer == 1)).head? = some visitC) ∧
    ((updateVisitById dbTwo "S1" 1 bodyStd).1 = Except.ok (applyUpdate visitC bodyStd) ∧
     (updateVisitById dbTwo "S1" 1 bodyStd).2.visits.length = dbTwo.visits.length ∧
     applyUpdate visitC bodyStd ∈ (updateVisitById dbTwo "S1" 1 bodyStd).2.visits ∧
     (∀ w ∈ dbTwo.visits, w ≠ visitC → w ∈ (updateVisitById dbTwo "S1" 1 bodyStd).2.visits)) :=
  ⟨⟨by decide, by decide⟩,
   updateVisitById_first_match dbTwo "S1" 1 bodyStd visitC (by decide) (by decide)⟩

/-- C10: every visit of the school appears in the `getVisitsBySchoolId`
result even when its trainer reference does not resolve to a `skillTrainer`
user — in that case with a `null` counselor — and no error is raised;
NOT_FOUND is raised exactly when the school has no visits at all. -/
theorem getVisitsBySchoolId_spec (db : DB) (sid : String) :
    ((∀ v ∈ db.visits, v.schoolId ≠ sid) →
      getVisitsBySchoolId db sid = Except.error (ApiError.notFound "Visits not found")) ∧
    (∀ v ∈ db.visits, v.schoolId = sid →
      getVisitsBySchoolId db sid =
        Except.ok ((db.visits.filter (fun w => w.schoolId == sid)).map (populateVisit db)) ∧
      populateVisit db v ∈ (db.visits.filter (fun w => w.schoolId == sid)).map (populateVisit db) ∧
      (db.users.find? (fun u => u.id == v.trainer && u.role == "skillTrainer") = none →
        (populateVisit db v).counselor = none)) := by
  constructor
  · intro h
    have hnil : db.visits.filter (fun w => w.schoolId == sid) = [] :=
      filter_nil_of_all_false _ (fun w hw => by simp [h w hw])
    simp [getVisitsBySchoolId, hnil]
  · intro v hv hsid
    have hmem : v ∈ db.visits.filter (fun w => w.schoolId == sid) :=
      List.mem_filter.mpr ⟨hv, by simp [hsid]⟩
    have hne : (db.visits.filter (fun w => w.schoolId == sid)).isEmpty = false := by
      rcases hfilter : db.visits.filter (fun w => w.schoolId == sid) with _ | ⟨a, t⟩
      · rw [hfilter] at hmem; cases hmem
      · rw [hfilter]; rfl
    refine ⟨by simp [getVisitsBySchoolId, hne], List.mem_map.mpr ⟨v, hmem, rfl⟩, ?_⟩
    intro h
    simp [populateVisit, h]

/-- Witness for C10: school `S1` has two visits of trainer 1, but no user
with id 1 exists, so both visits come back with a `null` counselor and the
call succeeds. -/
theorem getVisitsBySchoolId_spec_witness :
    (visitC ∈ dbTwo.visits ∧ visitC.schoolId = "S1" ∧
     dbTwo.users.find? (fun u => u.id == visitC.trainer && u.role == "skillTrainer") = none) ∧
    (getVisitsBySchoolId dbTwo "S1" =
      Except.ok ((dbTwo.visits.filter (fun w => w.schoolId == "S1")).map (populateVisit dbTwo)) ∧
     populateVisit dbTwo visitC ∈
      (dbTwo.visits.filter (fun w => w.schoolId == "S1")).map (populateVisit dbTwo) ∧
     (dbTwo.users.find? (fun u => u.id == visitC.trainer && u.role == "skillTrainer") = none →
       (populateVisit dbTwo visitC).counselor = none)) :=
  ⟨⟨by decide, by decide, by decide⟩,
   (getVisitsBySchoolId_spec dbTwo "S1").2 visitC (by decide) (by decide)⟩

theorem mem_jsSetDedup {l : List String} {x : String} : x ∈ jsSetDedup l ↔ x ∈ l := by
  induction l with
  | nil => simp [jsSetDedup]
  | cons a t ih =>
    by_cases hx : x = a
    · simp [jsSetDedup, hx]
    · simp [jsSetDedup, List.mem_filter, ih, hx]

theorem nodup_jsSetDedup (l : List String) : (jsSetDedup l).Nodup := by
  induction l with
  | nil => simp [jsSetDedup]
  | cons a t ih =>
    rw [jsSetDedup, List.nodup_cons]
    exact ⟨fun hmem => by simpa using (List.mem_filter.mp hmem).2, ih.filter _⟩

theorem length_jsSetDedup (l : List String) : (jsSetDedup l).length = l.toFinset.card := by
  have h1 : (jsSetDedup l).toFinset = l.toFinset := by
    ext x
    simp [List.mem_toFinset, mem_jsSetDedup]
  calc (jsSetDedup l).length = (jsSetDedup l).dedup.length := by
        rw [List.Nodup.dedup (nodup_jsSetDedup l)]
    _ = (jsSetDedup l).toFinset.card := (List.card_toFinset _).symm
    _ = l.toFinset.card := by rw [h1]

/-- Counting list elements whose key lies in `ids` equals the sum, over the
distinct keys of `ids`, of the per-key counts. -/
theorem length_filter_contains_eq_sum (students : List Student) (ids : List String) :
    (students.filter (fun s => ids.contains s.schoolId)).length =
      ∑ sid ∈ ids.toFinset, (students.filter (fun s => s.schoolId == sid)).length := by
  induction students with
  | nil => simp
  | cons s t ih =>
    have hsplit : ∀ sid : String,
        (List.filter (fun x => x.schoolId == sid) (s :: t)).length =
          (if s.schoolId = sid then 1 else 0) + (t.filter (fun x => x.schoolId == sid)).length := by
      intro sid
      by_cases h : s.schoolId = sid <;> simp [List.filter_cons, h]
      omega
    rw [List.filter_cons]
    by_cases h : s.schoolId ∈ ids
    · have hc : ids.contains s.schoolId = true := List.elem_iff.mpr h
      simp only [hc, if_true, List.length_cons, ih]
      simp only [hsplit, Finset.sum_add_distrib, Finset.sum_ite_eq, List.mem_toFinset, h, if_true]
      omega
    · have hc : ids.contains s.schoolId = false := by
        rcases hcc : ids.contains s.schoolId with _ | _
        · rfl
        · exact absurd (List.elem_iff.mp hcc) h
      simp only [hc, Bool.false_eq_true, if_false, ih]
      simp only [hsplit, Finset.sum_add_distrib, Finset.sum_ite_eq, List.mem_toFinset, h, if_false]
      omega

/-- C6: `getSchoolIdsAndStudentCount` reports `totalSchools` equal to the
number of distinct school ids among the trainer's visits, `totalStudents`
equal to the sum over those distinct schools of their student counts, and a
status-keyed map whose entries are exactly the statuses of the trainer's
visits paired with how many of the trainer's visits carry each status. -/
theorem getSchoolIdsAndStudentCount_spec (db : DB) (tid : Nat) :
    (getSchoolIdsAndStudentCount db tid).totalSchools =
      ((db.visits.filter (fun v => v.trainer == tid)).map (fun v => v.schoolId)).toFinset.card ∧
    (getSchoolIdsAndStudentCount db tid).totalStudents =
      ∑ sid ∈ ((db.visits.filter (fun v => v.trainer == tid)).map (fun v => v.schoolId)).toFinset,
        (db.students.filter (fun s => s.schoolId == sid)).length ∧
    (∀ st cnt, (st, cnt) ∈ (getSchoolIdsAndStudentCount db tid).statusCounts ↔
      (st ∈ (db.visits.filter (fun v => v.trainer == tid)).map (fun v => v.status) ∧
       cnt = ((db.visits.filter (fun v => v.trainer == tid)).filter
         (fun v => v.status == st)).length)) := by
  refine ⟨length_jsSetDedup _, ?_, ?_⟩
  · have h := length_filter_contains_eq_sum db.students
      (jsSetDedup ((db.visits.filter (fun v => v.trainer == tid)).map (fun v => v.schoolId)))
    have htf : (jsSetDedup ((db.visits.filter (fun v => v.trainer == tid)).map
        (fun v => v.schoolId))).toFinset =
        ((db.visits.filter (fun v => v.trainer == tid)).map (fun v => v.schoolId)).toFinset := by
      ext x
      simp [List.mem_toFinset, mem_jsSetDedup]
    rw [getSchoolIdsAndStudentCount, h, htf]
  · intro st cnt
    constructor
    · intro hmem
      obtain ⟨st0, hst0, heq⟩ := List.mem_map.mp hmem
      obtain ⟨h1, h2⟩ := Prod.mk.injEq .. ▸ heq
      subst h1
      exact ⟨mem_jsSetDedup.mp hst0, h2.symm⟩
    · rintro ⟨hst, rfl⟩
      exact List.mem_map.mpr ⟨st, mem_jsSetDedup.mpr hst, rfl⟩

/-- A trainer-1 history with visits to schools A, B, A. -/
def dbABA : DB :=
  { visits := [{ id := 0, trainer := 1, schoolId := "A", visitDate := "d1", time := "t1" },
               { id := 1, trainer := 1, schoolId := "B", visitDate := "d2", time := "t1" },
               { id := 2, trainer := 1, schoolId := "A", visitDate := "d3", time := "t1" }],
    students := [{ id := 0, schoolId := "A" }, { id := 1, schoolId := "A" },
                 { id := 2, schoolId := "B" }, { id := 3, schoolId := "C" }],
    nextVisitId := 3 }

/-- Witness for C6 on a concrete history: 3 visits to schools {A, B, A} give
2 distinct schools and 3 students (2 in A, 1 in B, none from elsewhere). -/
theorem getSchoolIdsAndStudentCount_spec_witness :
    (getSchoolIdsAndStudentCount dbABA 1).totalSchools = 2 ∧
    (getSchoolIdsAndStudentCount dbABA 1).totalStudents = 3 ∧
    (getSchoolIdsAndStudentCount dbABA 1).totalStudents =
      ∑ sid ∈ ((dbABA.visits.filter (fun v => v.trainer == 1)).map (fun v => v.schoolId)).toFinset,
        (dbABA.students.filter (fun s => s.schoolId == sid)).length ∧
    ((("scheduled" : String), (3 : Nat)) ∈ (getSchoolIdsAndStudentCount dbABA 1).statusCounts ↔
      ("scheduled" ∈ (dbABA.visits.filter (fun v => v.trainer == 1)).map (fun v => v.status) ∧
       (3 : Nat) = ((dbABA.visits.filter (fun v => v.trainer == 1)).filter
         (fun v => v.status == "scheduled")).length)) :=
  ⟨by decide, by decide,
   (getSchoolIdsAndStudentCount_spec dbABA 1).2.1,
   (getSchoolIdsAndStudentCount_spec dbABA 1).2.2 "scheduled" 3⟩

/-- C7 counterexample: trainer 1 has two visits (to school `S1`), but no
school record with `schoolId = S1` exists, so the `$unwind` stage drops both
visits and `getTrainerVisits` returns no rows at all — not "all visits of
that trainer". -/
theorem getTrainerVisits_cex :
    getTrainerVisits dbTwo 1 none = [] ∧ (matchStage dbTwo 1 none).length = 2 := by
  constructor
  · rfl
  · decide

theorem flatMap_map_of_unique {α β γ : Type} (l : List α) (f : α → List β) (g : α → β → γ)
    (d : β) (h : ∀ a ∈ l, (f a).length = 1) :
    l.flatMap (fun a => (f a).map (g a)) = l.map (fun a => g a ((f a).headD d)) := by
  induction l with
  | nil => rfl
  | cons a t ih =>
    obtain ⟨x, hx⟩ := List.length_eq_one.mp (h a (by simp))
    simp only [List.flatMap_cons, List.map_cons, hx, List.headD_cons, List.map_nil]
    rw [ih (fun b hb => h b (by simp [hb]))]
    rfl

/-- The all-defaults school record, used only to name the unique looked-up
school via `headD`. -/
def noSchool : School := {}

/-- C7 amended: provided every matched visit's `schoolId` resolves to exactly
one school record, `getTrainerVisits` returns one row per visit of the
trainer (restricted to the given status via the `$match` stage), in order,
each row being the `$project` narrowing (`id`, `visitDate`, `time`,
`standard`, `status`, `createdAt`, `school`) of the visit joined with its
unique school; a visit whose `schoolId` matches no school record is dropped
by `$unwind`, so the unconditional "returns all visits" reading fails. -/
theorem getTrainerVisits_join (db : DB) (tid : Nat) (st : Option String)
    (h : ∀ v ∈ matchStage db tid st, (lookupSchools db v.schoolId).length = 1) :
    getTrainerVisits db tid st =
      (matchStage db tid st).map
        (fun v => mkRow v ((lookupSchools db v.schoolId).headD noSchool)) := by
  rw [getTrainerVisits]
  exact flatMap_map_of_unique _ _ _ _ h

/-- A school record for `S1`. -/
def schoolS1 : School := { schoolId := "S1", udisecode := "U1" }

/-- A database where trainer 1's sole visit resolves to exactly one school. -/
def dbJoin : DB := { visits := [visitC], schools := [schoolS1], nextVisitId := 1 }

/-- Witness for the amended C7: with a school record present, the trainer's
single visit produces exactly its joined, narrowed row. -/
theorem getTrainerVisits_join_witness :
    (∀ v ∈ matchStage dbJoin 1 none, (lookupSchools dbJoin v.schoolId).length = 1) ∧
    getTrainerVisits dbJoin 1 none =
      (matchStage dbJoin 1 none).map
        (fun v => mkRow v ((lookupSchools dbJoin v.schoolId).headD noSchool)) :=
  ⟨by decide, getTrainerVisits_join dbJoin 1 none (by decide)⟩

/-- The sequential unrolling of the bulk-upload loop: against a fixed
classification `p` of records as duplicates (valid for the whole batch when
its `udisecode`s are pairwise distinct), the loop appends one school and one
companion school-role user per non-duplicate record, and splits the batch
into the duplicate and non-duplicate sublists in order. -/
theorem processBulk_spec (gen : Nat → String) (p : SchoolInput → Bool) :
    ∀ (batch : List SchoolInput) (db : DB) (r d : List SchoolInput) (i : Nat),
      (batch.map (fun s => s.udisecode)).Nodup →
      (∀ s ∈ batch, dupTest db s = p s) →
      ∃ newSchools newUsers,
        processBulk gen batch db r d i =
          ({ db with schools := db.schools ++ newSchools,
                     users := db.users ++ newUsers,
                     nextUserId := db.nextUserId + newUsers.length },
           r ++ batch.filter (fun s => !(p s)), d ++ batch.filter p) ∧
        newSchools.length = (batch.filter (fun s => !(p s))).length ∧
        newUsers.length = (batch.filter (fun s => !(p s))).length ∧
        (∀ u ∈ newUsers, u.role = "school" ∧ u.password = "admin@123") := by
  intro batch
  induction batch with
  | nil =>
    intro db r d i _ _
    exact ⟨[], [], by simp [processBulk], rfl, rfl, by simp⟩
  | cons s rest ih =>
    intro db r d i hnodup hf
    rw [List.map_cons] at hnodup
    have hns : s.udisecode ∉ rest.map (fun t => t.udisecode) :=
      (List.nodup_cons.mp hnodup).1
    have hnodup' : (rest.map (fun t => t.udisecode)).Nodup :=
      (List.nodup_cons.mp hnodup).2
    rcases hps : p s with _ | _
    · -- non-duplicate record: a school and a user are created
      have hdup : dupTest db s = false := (hf s (by simp)).trans hps
      have hf' : ∀ t ∈ rest,
          dupTest { db with
            schools := db.schools ++ [mkSchool s (gen i)],
            users := db.users ++ [mkSchoolUser s (gen i) db.nextUserId],
            nextUserId := db.nextUserId + 1 } t = p t := by
        intro t ht
        have hne : (s.udisecode == t.udisecode) = false := by
          have : t.udisecode ≠ s.udisecode := by
            intro hcontra
            exact hns (List.mem_map.mpr ⟨t, ht, hcontra⟩)
          simp [this.symm]
        have : dupTest { db with
            schools := db.schools ++ [mkSchool s (gen i)],
            users := db.users ++ [mkSchoolUser s (gen i) db.nextUserId],
            nextUserId := db.nextUserId + 1 } t = (dupTest db t || (s.udisecode == t.udisecode)) := by
          simp [dupTest, List.any_append, mkSchool]
        rw [this, hne, Bool.or_false]
        exact hf t (by simp [ht])
      obtain ⟨ns, nu, heq, hlen1, hlen2, hprops⟩ :=
        ih { db with
          schools := db.schools ++ [mkSchool s (gen i)],
          users := db.users ++ [mkSchoolUser s (gen i) db.nextUserId],
          nextUserId := db.nextUserId + 1 } (r ++ [s]) d (i + 1) hnodup' hf'
      refine ⟨mkSchool s (gen i) :: ns, mkSchoolUser s (gen i) db.nextUserId :: nu, ?_, ?_, ?_, ?_⟩
      · rw [processBulk, if_neg (by simp [hdup]), heq]
        refine Prod.ext ?_ (Prod.ext ?_ ?_) <;>
          simp [List.filter_cons, hps, List.append_assoc]
        omega
      · simp [List.filter_cons, hps, hlen1]
      · simp [List.filter_cons, hps, hlen2]
      · intro u hu
        rcases List.mem_cons.mp hu with h | h
        · subst h
          exact ⟨rfl, rfl⟩
        · exact hprops u h
    · -- duplicate record: nothing is written, the record joins `dups`
      have hdup : dupTest db s = true := (hf s (by simp)).trans hps
      obtain ⟨ns, nu, heq, hlen1, hlen2, hprops⟩ :=
        ih db r (d ++ [s]) i hnodup' (fun t ht => hf t (by simp [ht]))
      refine ⟨ns, nu, ?_, ?_, ?_, hprops⟩
      · rw [processBulk, if_pos hdup, heq]
        refine Prod.ext rfl (Prod.ext ?_ ?_) <;>
          simp [List.filter_cons, hps, List.append_assoc]
      · simp [List.filter_cons, hps, hlen1]
      · simp [List.filter_cons, hps, hlen2]

/-- C5: for a non-empty batch with pairwise-distinct `udisecode`s processed
without races, `bulkUpload` reports `totalDuplicates` equal to the number K
of records whose `udisecode` already exists in storage and
`totalNonDuplicates = N − K`, and persists exactly one new school and exactly
one companion user — with role `school` and the fixed default password — per
non-duplicate record. -/
theorem bulkUpload_dedup (gen : Nat → String) (db : DB) (batch : List SchoolInput)
    (hne : batch ≠ [])
    (hnodup : (batch.map (fun s => s.udisecode)).Nodup) :
    ∃ summary db2 newSchools newUsers,
      bulkUpload gen db (some batch) none = (BulkResult.ok summary, db2) ∧
      summary.totalDuplicates = (batch.filter (dupTest db)).length ∧
      summary.totalNonDuplicates = batch.length - (batch.filter (dupTest db)).length ∧
      db2.schools = db.schools ++ newSchools ∧
      db2.users = db.users ++ newUsers ∧
      newSchools.length = summary.totalNonDuplicates ∧
      newUsers.length = summary.totalNonDuplicates ∧
      (∀ u ∈ newUsers, u.role = "school" ∧ u.password = "admin@123") := by
  obtain ⟨ns, nu, heq, hlen1, hlen2, hprops⟩ :=
    processBulk_spec gen (dupTest db) batch db [] [] 0 hnodup (fun _ _ => rfl)
  have hempty : batch.isEmpty = false := by
    rcases batch with _ | ⟨a, t⟩
    · exact absurd rfl hne
    · rfl
  have hsub : (batch.filter (fun s => !(dupTest db s))).length =
      batch.length - (batch.filter (dupTest db)).length := by
    have := List.length_eq_length_filter_add (l := batch) (dupTest db)
    omega
  have hbulk : bulkUpload gen db (some batch) none =
      (BulkResult.ok
        { totalDuplicates := (batch.filter (dupTest db)).length,
          dupData := batch.filter (dupTest db),
          totalNonDuplicates := (batch.filter (fun s => !(dupTest db s))).length,
          nonDupData := batch.filter (fun s => !(dupTest db s)) },
       { db with schools := db.schools ++ ns, users := db.users ++ nu,
                 nextUserId := db.nextUserId + nu.length }) := by
    rw [bulkUpload]
    simp only [hempty, Bool.false_eq_true, if_false, heq, List.nil_append]
  exact ⟨_, _, ns, nu, hbulk, rfl, hsub, rfl, rfl, hlen1, hlen2, hprops⟩

/-- An upload record whose `udisecode` `U1` already exists in storage. -/
def inputU1 : SchoolInput := { udisecode := "U1", firstname := "a" }

/-- An upload record with the fresh `udisecode` `U2`. -/
def inputU2 : SchoolInput := { udisecode := "U2", firstname := "b" }

/-- Storage already holding the school with `udisecode` `U1`. -/
def dbSchools : DB := { schools := [schoolS1] }

/-- A fixed id-generator standing in for `SCH` + 6 random digits (the source
gives no uniqueness guarantee either). -/
def genFix : Nat → String := fun _ => "SCH123456"

/-- Witness for C5: uploading records {U1, U2} over storage containing U1
yields 1 duplicate and 1 new school with its companion user. -/
theorem bulkUpload_dedup_witness :
    (([inputU1, inputU2] : List SchoolInput) ≠ [] ∧
     (([inputU1, inputU2].map (fun s => s.udisecode)).Nodup)) ∧
    (∃ summary db2 newSchools newUsers,
      bulkUpload genFix dbSchools (some [inputU1, inputU2]) none = (BulkResult.ok summary, db2) ∧
      summary.totalDuplicates = ([inputU1, inputU2].filter (dupTest dbSchools)).length ∧
      summary.totalNonDuplicates =
        ([inputU1, inputU2] : List SchoolInput).length -
          ([inputU1, inputU2].filter (dupTest dbSchools)).length ∧
      db2.schools = dbSchools.schools ++ newSchools ∧
      db2.users = dbSchools.users ++ newUsers ∧
      newSchools.length = summary.totalNonDuplicates ∧
      newUsers.length = summary.totalNonDuplicates ∧
      (∀ u ∈ newUsers, u.role = "school" ∧ u.password = "admin@123")) :=
  ⟨⟨by decide, by decide⟩,
   bulkUpload_dedup genFix dbSchools [inputU1, inputU2] (by decide) (by decide)⟩

/-- C8: a missing or empty school batch makes `bulkUpload` return the
`{error: true, message: 'missing array'}` object as a normal value — its
result type carries no exception, and the error response occurs exactly for
missing/empty batches — while the other domain error paths of the system
(here: the no-visits school lookup and the missing-visit update) are raised
as `ApiError` exceptions. -/
theorem bulkUpload_empty_spec (gen : Nat → String) (db : DB) :
    (bulkUpload gen db none none = (BulkResult.errorResp "missing array", db)) ∧
    (∀ l, (bulkUpload gen db (some l) none).1 = BulkResult.errorResp "missing array" ↔ l = []) ∧
    (∀ arr l, (bulkUpload gen db arr (some l)).1 = BulkResult.errorResp "missing array" ↔ l = []) ∧
    (∀ sid, (∀ v ∈ db.visits, v.schoolId ≠ sid) →
      getVisitsBySchoolId db sid = Except.error (ApiError.notFound "Visits not found")) ∧
    (∀ sid tid u, db.visits.find? (fun w => w.schoolId == sid && w.trainer == tid) = none →
      updateVisitById db sid tid u = (Except.error (ApiError.notFound "Visit not found"), db)) := by
  refine ⟨rfl, ?_, ?_, ?_, ?_⟩
  · intro l
    cases l with
    | nil => simp [bulkUpload]
    | cons a t =>
      rcases hp : processBulk gen (a :: t) db [] [] 0 with ⟨db2, records, dups⟩
      simp [bulkUpload, hp]
  · intro arr l
    cases l with
    | nil => simp [bulkUpload]
    | cons a t =>
      rcases hp : processBulk gen (a :: t) db [] [] 0 with ⟨db2, records, dups⟩
      simp [bulkUpload, hp]
  · intro sid h
    have hnil : db.visits.filter (fun w => w.schoolId == sid) = [] :=
      filter_nil_of_all_false _ (fun w hw => by simp [h w hw])
    simp [getVisitsBySchoolId, hnil]
  · intro sid tid u h
    simp [updateVisitById, h]

/-- Witness for C8 at concrete inputs: the empty, missing and CSV-empty
batches produce the error-flagged value, and the two exception-style error
paths raise on the visit-free `dbSchools`. -/
theorem bulkUpload_empty_spec_witness :
    (bulkUpload genFix dbSchools none none = (BulkResult.errorResp "missing array", dbSchools)) ∧
    ((bulkUpload genFix dbSchools (some []) none).1 = BulkResult.errorResp "missing array" ↔
      ([] : List SchoolInput) = []) ∧
    ((bulkUpload genFix dbSchools (some [inputU1]) (some [])).1 =
        BulkResult.errorResp "missing array" ↔ ([] : List SchoolInput) = []) ∧
    getVisitsBySchoolId dbSchools "S1" = Except.error (ApiError.notFound "Visits not found") ∧
    updateVisitById dbSchools "S1" 1 bodyStd =
      (Except.error (ApiError.notFound "Visit not found"), dbSchools) :=
  ⟨(bulkUpload_empty_spec genFix dbSchools).1,
   (bulkUpload_empty_spec genFix dbSchools).2.1 [],
   (bulkUpload_empty_spec genFix dbSchools).2.2.1 (some [inputU1]) [],
   (bulkUpload_empty_spec genFix dbSchools).2.2.2.1 "S1" (by decide),
   (bulkUpload_empty_spec genFix dbSchools).2.2.2.2 "S1" 1 bodyStd (by decide)⟩

end DMF
